import Mathlib

/-
Verification development for the realtime client core of the bevy-supabase
repository (crates/bevy-realtime).  Rust hash maps are embedded as
association lists over String keys; callbacks stored behind trait objects
are embedded as numeric callback identifiers together with an explicit
invocation trace; crossbeam queues are embedded as lists threaded through
the functions that use them.  Machine integers that matter (timestamps,
counters) are embedded as Nat.
-/

set_option maxRecDepth 4000

namespace Rt

/-! ## Association-list embedding of std HashMap -/

namespace Assoc

variable {κ : Type} [DecidableEq κ] {α : Type}

/-- Lookup of a key in an association list (HashMap::get). -/
def lookupKey : List (κ × α) → κ → Option α
  | [], _ => none
  | p :: rest, k => if p.1 = k then some p.2 else lookupKey rest k

/-- Key membership (HashMap::contains_key). -/
def containsKey (l : List (κ × α)) (k : κ) : Bool :=
  (lookupKey l k).isSome

/-- Removal of a key (HashMap::remove, ignoring the returned value). -/
def removeKey : List (κ × α) → κ → List (κ × α)
  | [], _ => []
  | p :: rest, k => if p.1 = k then removeKey rest k else p :: removeKey rest k

/-- Insert-or-overwrite of a binding (HashMap::insert). -/
def insertKey (l : List (κ × α)) (k : κ) (v : α) : List (κ × α) :=
  removeKey l k ++ [(k, v)]

/-- Merge of a second map into a first, overwriting by key (HashMap::extend). -/
def extendMap (l : List (κ × α)) (m : List (κ × α)) : List (κ × α) :=
  m.foldl (fun acc p => insertKey acc p.1 p.2) l

/-- Lookup with a default (callbacks.get_mut(..).unwrap_or(&mut vec![])). -/
def getD (l : List (κ × α)) (k : κ) (d : α) : α :=
  (lookupKey l k).getD d

theorem lookupKey_append (l1 l2 : List (κ × α)) (k : κ) :
    lookupKey (l1 ++ l2) k = ((lookupKey l1 k).orElse (fun _ => lookupKey l2 k)) := by
  induction l1 with
  | nil => simp [lookupKey]
  | cons p rest ih =>
    by_cases h : p.1 = k
    · simp [lookupKey, h]
    · simp [lookupKey, h, ih]

theorem removeKey_lookup_ne (l : List (κ × α)) (k i : κ) (h : k ≠ i) :
    lookupKey (removeKey l k) i = lookupKey l i := by
  induction l with
  | nil => simp [removeKey]
  | cons p rest ih =>
    by_cases hp : p.1 = k
    · have hpi : p.1 ≠ i := by rw [hp]; exact h
      simp [removeKey, hp, lookupKey, hpi, h, ih]
    · by_cases hi : p.1 = i
      · simp [removeKey, hp, lookupKey, hi, Ne.symm h]
      · simp [removeKey, hp, lookupKey, hi, ih]

theorem removeKey_lookup_self (l : List (κ × α)) (k : κ) :
    lookupKey (removeKey l k) k = none := by
  induction l with
  | nil => simp [removeKey, lookupKey]
  | cons p rest ih =>
    by_cases hp : p.1 = k
    · simp [removeKey, hp, ih]
    · simp [removeKey, hp, lookupKey, hp, ih]

theorem insertKey_lookup_ne (l : List (κ × α)) (k i : κ) (v : α) (h : k ≠ i) :
    lookupKey (insertKey l k v) i = lookupKey l i := by
  unfold insertKey
  rw [lookupKey_append, removeKey_lookup_ne l k i h]
  cases hl : lookupKey l i with
  | some a => simp
  | none => simp [lookupKey, h]

theorem extendMap_lookup_not_mem (l m : List (κ × α)) (i : κ)
    (h : containsKey m i = false) :
    lookupKey (extendMap l m) i = lookupKey l i := by
  induction m generalizing l with
  | nil => simp [extendMap]
  | cons p rest ih =>
    unfold containsKey at h ih
    by_cases hp : p.1 = i
    · exfalso
      simp [lookupKey, hp] at h
    · have hrest : (lookupKey rest i).isSome = false := by
        simpa [lookupKey, hp] using h
      unfold extendMap at ih ⊢
      simp only [List.foldl_cons]
      rw [ih _ hrest, insertKey_lookup_ne l p.1 i p.2 hp]

theorem containsKey_false_forall (l : List (κ × α)) (i : κ)
    (h : containsKey l i = false) : ∀ p ∈ l, p.1 ≠ i := by
  induction l with
  | nil => simp
  | cons p rest ih =>
    unfold containsKey at h ih
    by_cases hp : p.1 = i
    · exfalso; simp [lookupKey, hp] at h
    · intro q hq
      rcases List.mem_cons.mp hq with hq | hq
      · rw [hq]; exact hp
      · exact ih (by simpa [lookupKey, hp] using h) q hq

theorem containsKey_true_mem (l : List (κ × α)) (i : κ)
    (h : containsKey l i = true) : i ∈ l.map Prod.fst := by
  induction l with
  | nil => simp [containsKey, lookupKey] at h
  | cons p rest ih =>
    unfold containsKey at h ih
    by_cases hp : p.1 = i
    · simp [hp]
    · have := ih (by simpa [lookupKey, hp] using h)
      simp [this]

end Assoc

/-! ## Scalar JSON values

serde_json::Value carried opaquely through presence state and payload maps;
embedded as a scalar value type. -/

inductive Value where
  | vNull
  | vBool (b : Bool)
  | vInt (n : Int)
  | vStr (s : String)
deriving DecidableEq

/-! ## Presence data model (presence.rs) -/

/-- HashMap of key to value (presence.rs StateData). -/
abbrev StateData := List (String × Value)

/-- HashMap of phx_ref to StateData (presence.rs PhxMap). -/
abbrev PhxMap := List (String × StateData)

/-- HashMap of id to PhxMap (presence.rs PresenceStateInner). -/
abbrev PresenceStateInner := List (String × PhxMap)

/-- Triple nested presence map, layout id -> phx_ref -> key -> value
(presence.rs PresenceState). -/
structure PresenceState where
  inner : PresenceStateInner
deriving DecidableEq

/-- Presence event types (presence.rs PresenceEvent). -/
inductive PresenceEvent where
  | track
  | untrack
  | join
  | leave
  | sync
deriving DecidableEq

/-- Raw presence meta entry: a phx_ref plus flattened state data
(presence.rs RawPresenceMeta). -/
structure RawPresenceMeta where
  phx_ref : String
  state_data : StateData
deriving DecidableEq

/-- Collection of raw presence metas (presence.rs RawPresenceMetas). -/
structure RawPresenceMetas where
  metas : List RawPresenceMeta
deriving DecidableEq

/-- Raw wire-shaped presence state (presence.rs RawPresenceState). -/
abbrev RawPresenceState := List (String × RawPresenceMetas)

/-- Conversion of one metas vector into a PhxMap, inserting each meta by its
phx_ref (inner loop of the From RawPresenceState impl, presence.rs 85-101). -/
def rawMetasToPhxMap (ms : List RawPresenceMeta) : PhxMap :=
  ms.foldl (fun acc m => Assoc.insertKey acc m.phx_ref m.state_data) []

/-- Conversion from RawPresenceState into PresenceState
(presence.rs From RawPresenceState impl). -/
def rawToPresenceState (r : RawPresenceState) : PresenceState :=
  ⟨r.foldl (fun acc p => Assoc.insertKey acc p.1 (rawMetasToPhxMap p.2.metas)) []⟩

/-- Raw presence diff (presence.rs RawPresenceDiff). -/
structure RawPresenceDiff where
  joins : RawPresenceState
  leaves : RawPresenceState
deriving DecidableEq

/-- Canonical presence diff (presence.rs PresenceDiff). -/
structure PresenceDiff where
  joins : PresenceState
  leaves : PresenceState
deriving DecidableEq

/-- Conversion from RawPresenceDiff (presence.rs From RawPresenceDiff impl). -/
def rawToPresenceDiff (d : RawPresenceDiff) : PresenceDiff :=
  { joins := rawToPresenceState d.joins, leaves := rawToPresenceState d.leaves }

/-- One recorded invocation of a presence callback.  The Rust callbacks are
shared closures Fn(String, PresenceState, PresenceState); they are embedded as
numeric identifiers, and every invocation is recorded as a trace entry carrying
the three arguments. -/
structure PresenceCall where
  cb : Nat
  key : String
  before : PresenceState
  delta : PresenceState
deriving DecidableEq

/-- Presence engine: canonical state plus callback registry
(presence.rs Presence).  Callback closures are embedded as identifiers. -/
structure Presence where
  state : PresenceState
  callbacks : List (PresenceEvent × List Nat)

/-- The joins computation inside Presence::sync (presence.rs 143-160).
In the source the retain closure initialises retain to true, then builds
the iterator self.state.0.clone().into_values().map(..) whose body would set
retain to false when the ref is already present under some id; that Map
iterator is bound to a wildcard and dropped without ever being consumed, and
Rust iterators are lazy, so the body never runs and retain is still true for
every entry: the whole new state is kept as joins. -/
def syncJoins (_current new_state : PresenceState) : PresenceState :=
  ⟨new_state.inner.map (fun p => (p.1, p.2.filter (fun _q => true)))⟩

/-- The leaves computation inside Presence::sync (presence.rs 162-180).
Same dead lazy-iterator pattern as in syncJoins, with retain initialised to
false and never flipped: every inner entry is dropped, so leaves maps each
currently known id to an empty ref map. -/
def syncLeaves (current _new_state : PresenceState) : PresenceState :=
  ⟨current.inner.map (fun p => (p.1, p.2.filter (fun _q => false)))⟩

/-- The loop over diff.leaves inside Presence::sync_diff (presence.rs 212-222):
for each leaving id, every registered Leave callback is invoked with the state
held at that point, then that id is removed wholesale from the state. -/
def leaveLoop (cbs : List Nat) (leavesAll : PresenceState) :
    List (String × PhxMap) → PresenceState → PresenceState × List PresenceCall
  | [], st => (st, [])
  | idp :: rest, st =>
    let calls := cbs.map (fun cb => PresenceCall.mk cb idp.1 st leavesAll)
    let r := leaveLoop cbs leavesAll rest ⟨Assoc.removeKey st.inner idp.1⟩
    (r.1, calls ++ r.2)

/-- Presence::sync_diff (presence.rs 197-227): fire Join callbacks per joining
id, fire Leave callbacks per leaving id and delete that id entirely, then merge
the joins into the canonical state.  Returns the updated engine and the trace
of callback invocations in program order. -/
def Presence.sync_diff (p : Presence) (diff : PresenceDiff) :
    Presence × List PresenceCall :=
  let joinCbs := Assoc.getD p.callbacks PresenceEvent.join []
  let joinCalls := diff.joins.inner.flatMap
    (fun idp => joinCbs.map (fun cb => PresenceCall.mk cb idp.1 p.state diff.joins))
  let leaveCbs := Assoc.getD p.callbacks PresenceEvent.leave []
  let r := leaveLoop leaveCbs diff.leaves diff.leaves.inner p.state
  let st2 : PresenceState := ⟨Assoc.extendMap r.1.inner diff.joins.inner⟩
  ({ state := st2, callbacks := p.callbacks }, joinCalls ++ r.2)

/-- Presence::sync (presence.rs 141-195): compute joins and leaves from the
incoming state (see syncJoins and syncLeaves for the dead-closure behaviour),
apply them through sync_diff, then fire one Sync callback per id present in
the resulting state, passing the previous and the new state. -/
def Presence.sync (p : Presence) (new_state : PresenceState) :
    Presence × List PresenceCall :=
  let joins := syncJoins p.state new_state
  let leaves := syncLeaves p.state new_state
  let prev_state := p.state
  let (p1, calls1) := p.sync_diff { joins := joins, leaves := leaves }
  let syncCbs := Assoc.getD p1.callbacks PresenceEvent.sync []
  let syncCalls := p1.state.inner.flatMap
    (fun idp => syncCbs.map (fun cb => PresenceCall.mk cb idp.1 prev_state p1.state))
  (p1, calls1 ++ syncCalls)

/-! ## Reconnect backoff (client.rs 1109-1113) -/

/-- Default reconnect backoff: index a fixed table by the attempt count,
clamped to the last entry.  Delays are in seconds. -/
def backoff (attempts : Nat) : Nat :=
  let times : List Nat := [0, 1, 2, 5, 10]
  times.getD (min attempts (times.length - 1)) 0

end Rt

namespace Rt

/-! ## Lemmas about the sync_diff leave loop -/

theorem batch_filter_ne (cbs : List Nat) (k i : String) (st la : PresenceState)
    (h : k ≠ i) :
    (cbs.map (fun cb => PresenceCall.mk cb k st la)).filter (fun c => c.key == i)
      = [] := by
  induction cbs with
  | nil => rfl
  | cons c rest ih => simp [List.filter_cons, h, ih]

theorem batch_filter_eq (cbs : List Nat) (i : String) (st la : PresenceState) :
    (cbs.map (fun cb => PresenceCall.mk cb i st la)).filter (fun c => c.key == i)
      = cbs.map (fun cb => PresenceCall.mk cb i st la) := by
  induction cbs with
  | nil => rfl
  | cons c rest ih => simp [List.filter_cons, ih]

theorem batch_map_cb (cbs : List Nat) (i : String) (st la : PresenceState) :
    (cbs.map (fun cb => PresenceCall.mk cb i st la)).map PresenceCall.cb = cbs := by
  induction cbs with
  | nil => rfl
  | cons c rest ih => simp [ih]

theorem leaveLoop_not_mem (cbs : List Nat) (la : PresenceState)
    (l : List (String × PhxMap)) (st : PresenceState) (i : String)
    (h : i ∉ l.map Prod.fst) :
    Assoc.lookupKey (leaveLoop cbs la l st).1.inner i = Assoc.lookupKey st.inner i
  ∧ (leaveLoop cbs la l st).2.filter (fun c => c.key == i) = [] := by
  induction l generalizing st with
  | nil => simp [leaveLoop]
  | cons idp rest ih =>
    have hne : idp.1 ≠ i := by
      intro he; exact h (by simp [he])
    have hrest : i ∉ rest.map Prod.fst := by
      intro hm; exact h (by simp [hm])
    have hi := ih ⟨Assoc.removeKey st.inner idp.1⟩ hrest
    constructor
    · show Assoc.lookupKey (leaveLoop cbs la rest ⟨Assoc.removeKey st.inner idp.1⟩).1.inner i = _
      rw [hi.1]
      exact Assoc.removeKey_lookup_ne st.inner idp.1 i hne
    · show ((cbs.map (fun cb => PresenceCall.mk cb idp.1 st la))
          ++ (leaveLoop cbs la rest ⟨Assoc.removeKey st.inner idp.1⟩).2).filter
            (fun c => c.key == i) = []
      rw [List.filter_append, hi.2, batch_filter_ne cbs idp.1 i st la hne]
      rfl

theorem leaveLoop_mem (cbs : List Nat) (la : PresenceState)
    (l : List (String × PhxMap)) (st : PresenceState) (i : String)
    (hnd : (l.map Prod.fst).Nodup) (hmem : i ∈ l.map Prod.fst) :
    Assoc.lookupKey (leaveLoop cbs la l st).1.inner i = none
  ∧ ((leaveLoop cbs la l st).2.filter (fun c => c.key == i)).map PresenceCall.cb = cbs
  ∧ ∀ c ∈ (leaveLoop cbs la l st).2.filter (fun c => c.key == i),
      Assoc.lookupKey c.before.inner i = Assoc.lookupKey st.inner i := by
  induction l generalizing st with
  | nil => simp at hmem
  | cons idp rest ih =>
    have hnd2 : idp.1 ∉ rest.map Prod.fst ∧ (rest.map Prod.fst).Nodup := by
      rw [List.map_cons] at hnd
      exact List.nodup_cons.mp hnd
    by_cases hid : idp.1 = i
    · have hrest : i ∉ rest.map Prod.fst := hid ▸ hnd2.1
      have hnm := leaveLoop_not_mem cbs la rest ⟨Assoc.removeKey st.inner idp.1⟩ i hrest
      refine ⟨?_, ?_, ?_⟩
      · show Assoc.lookupKey
          (leaveLoop cbs la rest ⟨Assoc.removeKey st.inner idp.1⟩).1.inner i = none
        rw [hnm.1, hid]
        exact Assoc.removeKey_lookup_self st.inner i
      · show (((cbs.map (fun cb => PresenceCall.mk cb idp.1 st la))
            ++ (leaveLoop cbs la rest ⟨Assoc.removeKey st.inner idp.1⟩).2).filter
              (fun c => c.key == i)).map PresenceCall.cb = cbs
        rw [List.filter_append, hnm.2, List.append_nil, hid,
          batch_filter_eq cbs i st la, batch_map_cb cbs i st la]
      · intro c hc
        have hc2 : c ∈ ((cbs.map (fun cb => PresenceCall.mk cb idp.1 st la))
            ++ (leaveLoop cbs la rest ⟨Assoc.removeKey st.inner idp.1⟩).2).filter
              (fun c => c.key == i) := hc
        rw [List.filter_append, hnm.2, List.append_nil, hid,
          batch_filter_eq cbs i st la] at hc2
        rcases List.mem_map.mp hc2 with ⟨cb, _, hcb⟩
        rw [← hcb]
    · have hrest : i ∈ rest.map Prod.fst := by
        rw [List.map_cons] at hmem
        rcases List.mem_cons.mp hmem with h | h
        · exact absurd h.symm hid
        · exact h
      have hi := ih ⟨Assoc.removeKey st.inner idp.1⟩ hnd2.2 hrest
      have hlk : Assoc.lookupKey (Assoc.removeKey st.inner idp.1) i
          = Assoc.lookupKey st.inner i :=
        Assoc.removeKey_lookup_ne st.inner idp.1 i hid
      refine ⟨?_, ?_, ?_⟩
      · exact hi.1
      · show (((cbs.map (fun cb => PresenceCall.mk cb idp.1 st la))
            ++ (leaveLoop cbs la rest ⟨Assoc.removeKey st.inner idp.1⟩).2).filter
              (fun c => c.key == i)).map PresenceCall.cb = cbs
        rw [List.filter_append, batch_filter_ne cbs idp.1 i st la hid,
          List.nil_append, hi.2.1]
      · intro c hc
        have hc2 : c ∈ ((cbs.map (fun cb => PresenceCall.mk cb idp.1 st la))
            ++ (leaveLoop cbs la rest ⟨Assoc.removeKey st.inner idp.1⟩).2).filter
              (fun c => c.key == i) := hc
        rw [List.filter_append, batch_filter_ne cbs idp.1 i st la hid,
          List.nil_append] at hc2
        rw [hi.2.2 c hc2]
        exact hlk

theorem joinCalls_filter_ne (cbs : List Nat) (js : List (String × PhxMap))
    (st delta : PresenceState) (i : String) (h : ∀ p ∈ js, p.1 ≠ i) :
    (js.flatMap (fun idp => cbs.map
        (fun cb => PresenceCall.mk cb idp.1 st delta))).filter
      (fun c => c.key == i) = [] := by
  induction js with
  | nil => rfl
  | cons p rest ih =>
    have hp : p.1 ≠ i := h p (by simp)
    have hr : ∀ q ∈ rest, q.1 ≠ i := fun q hq => h q (by simp [hq])
    simp only [List.flatMap_cons, List.filter_append,
      batch_filter_ne cbs p.1 i st delta hp, List.nil_append]
    exact ih hr

/-! ## Claim theorems: presence and backoff -/

/-- C6: for every leave diff citing an id that holds refs in the canonical
state, sync_diff deletes that id entirely from the canonical state (all of its
refs, not only the cited ones), and invokes each registered Leave callback
exactly once for that id, passing the state as it stood before that id was
removed. -/
theorem C6_sync_diff_leave_granularity (p : Presence) (diff : PresenceDiff)
    (i : String) (m : PhxMap)
    (hnd : (diff.leaves.inner.map Prod.fst).Nodup)
    (hin : Assoc.containsKey diff.leaves.inner i = true)
    (hm : Assoc.lookupKey p.state.inner i = some m)
    (_hmulti : 2 ≤ m.length)
    (hj : Assoc.containsKey diff.joins.inner i = false) :
    Assoc.lookupKey (p.sync_diff diff).1.state.inner i = none
  ∧ ((p.sync_diff diff).2.filter (fun c => c.key == i)).map PresenceCall.cb
      = Assoc.getD p.callbacks PresenceEvent.leave []
  ∧ ∀ c ∈ (p.sync_diff diff).2.filter (fun c => c.key == i),
      Assoc.lookupKey c.before.inner i = some m := by
  have hmem := Assoc.containsKey_true_mem diff.leaves.inner i hin
  have hjf := Assoc.containsKey_false_forall diff.joins.inner i hj
  have hl := leaveLoop_mem (Assoc.getD p.callbacks PresenceEvent.leave [])
    diff.leaves diff.leaves.inner p.state i hnd hmem
  have hjc := joinCalls_filter_ne (Assoc.getD p.callbacks PresenceEvent.join [])
    diff.joins.inner p.state diff.joins i hjf
  refine ⟨?_, ?_, ?_⟩
  · show Assoc.lookupKey (Assoc.extendMap _ diff.joins.inner) i = none
    rw [Assoc.extendMap_lookup_not_mem _ diff.joins.inner i hj]
    exact hl.1
  · show ((diff.joins.inner.flatMap _ ++ _).filter
        (fun c => c.key == i)).map PresenceCall.cb = _
    rw [List.filter_append, hjc, List.nil_append]
    exact hl.2.1
  · intro c hc
    have hc2 : c ∈ (diff.joins.inner.flatMap (fun idp =>
        (Assoc.getD p.callbacks PresenceEvent.join []).map
          (fun cb => PresenceCall.mk cb idp.1 p.state diff.joins))
        ++ (leaveLoop (Assoc.getD p.callbacks PresenceEvent.leave [])
            diff.leaves diff.leaves.inner p.state).2).filter
          (fun c => c.key == i) := hc
    rw [List.filter_append, hjc, List.nil_append] at hc2
    rw [hl.2.2 c hc2]
    exact hm

def C6m : PhxMap := [("r1", [("x", Value.vInt 1)]), ("r2", [("x", Value.vInt 2)])]

def C6p : Presence :=
  { state := ⟨[("A", C6m), ("B", [("r3", [])])]⟩
    callbacks := [(PresenceEvent.leave, [7])] }

def C6diff : PresenceDiff :=
  { joins := ⟨[]⟩, leaves := ⟨[("A", [("r1", [("x", Value.vInt 1)])])]⟩ }

/-- Witness for C6 at a concrete two-ref id. -/
theorem C6_sync_diff_leave_granularity_witness :
    Assoc.lookupKey (C6p.sync_diff C6diff).1.state.inner "A" = none
  ∧ ((C6p.sync_diff C6diff).2.filter (fun c => c.key == "A")).map PresenceCall.cb
      = Assoc.getD C6p.callbacks PresenceEvent.leave []
  ∧ ∀ c ∈ (C6p.sync_diff C6diff).2.filter (fun c => c.key == "A"),
      Assoc.lookupKey c.before.inner "A" = some C6m :=
  C6_sync_diff_leave_granularity C6p C6diff "A" C6m (by decide) (by decide)
    (by decide) (by decide) (by decide)

def C1cur : PresenceState := ⟨[("A", [("r1", [("x", Value.vInt 1)])])]⟩

def C1new : PresenceState :=
  ⟨[("A", [("r1", [("x", Value.vInt 1)])]), ("B", [("r2", [("y", Value.vInt 2)])])]⟩

/-- C1: evaluation of Presence::sync at the example of the claim, current
state A maps r1 to x:1 and new state adds B mapping r2 to y:2.  Because the
retain closures inside sync never run (the lazy Map iterator carrying them is
dropped unconsumed), the code computes joins equal to the whole new state,
not only the B entry the claim requires, and computes leaves mapping the
already-present id A to an emptied ref map rather than the empty map, firing
a Leave callback for A on a sync in which nothing left. -/
theorem C1_sync_dead_closure_eval :
    syncJoins C1cur C1new = C1new
  ∧ syncJoins C1cur C1new ≠ ⟨[("B", [("r2", [("y", Value.vInt 2)])])]⟩
  ∧ syncLeaves C1cur C1new = ⟨[("A", [])]⟩
  ∧ (Presence.sync { state := C1cur, callbacks := [(PresenceEvent.leave, [3])] }
      C1new).1.state = C1new
  ∧ (Presence.sync { state := C1cur, callbacks := [(PresenceEvent.leave, [3])] }
      C1new).2
      = [PresenceCall.mk 3 "A" C1cur (syncLeaves C1cur C1new)] := by
  refine ⟨by decide, by decide, by decide, by decide, by decide⟩

/-- C5: the default backoff schedule maps attempts 0,1,2,3,4,5 to delays
0,1,2,5,10,10 seconds, and every attempt count of at least 4 is clamped to
10 seconds. -/
theorem C5_backoff_schedule :
    (backoff 0 = 0 ∧ backoff 1 = 1 ∧ backoff 2 = 2 ∧ backoff 3 = 5
      ∧ backoff 4 = 10 ∧ backoff 5 = 10)
  ∧ ∀ n, 4 ≤ n → backoff n = 10 := by
  constructor
  · refine ⟨by decide, by decide, by decide, by decide, by decide, by decide⟩
  · intro n h
    have hb : backoff n = [0, 1, 2, 5, 10].getD (min n 4) 0 := rfl
    have hmin : min n 4 = 4 := by omega
    rw [hb, hmin]
    rfl

/-- Witness for the clamped branch of C5 at attempt 7. -/
theorem C5_backoff_schedule_witness : backoff 7 = 10 :=
  C5_backoff_schedule.2 7 (by decide)

end Rt

namespace Rt

/-! ## Wire message data model

The crate declares pub mod message in lib.rs, but the message module sources
are not included in the repository snapshot; only its consumers (channel.rs,
client.rs, presence.rs) are.  The data shapes below are therefore modelled
from the spec (sections 3 and 6) and from how the consumers use them. -/

/-- Modelled from the spec: protocol event tag of a RealtimeMessage
(message::realtime_message::MessageEvent, module missing from the sources).
Variants cover every event the included consumers construct or match on. -/
inductive MessageEvent where
  | phxClose
  | phxReply
  | phxJoin
  | phxLeave
  | phxError
  | presence
  | presenceState
  | presenceDiff
  | untrack
  | accessToken
  | broadcast
  | postgresChanges
  | heartbeat
  | system
deriving DecidableEq

/-- Modelled from the spec: status carried by a Response payload
(message::payload::PayloadStatus, module missing from the sources). -/
inductive PayloadStatus where
  | ok
  | error
deriving DecidableEq

/-- Modelled from the spec: broadcast options of a join config. -/
structure BroadcastConfig where
  broadcast_self : Bool
  ack : Bool
deriving DecidableEq

/-- Modelled from the spec: presence options of a join config. -/
structure PresenceConfig where
  key : Option String
deriving DecidableEq

/-- Modelled from the spec: postgres change-type tag, with the wildcard All. -/
inductive PostgresChangesEvent where
  | all
  | insert
  | update
  | delete
deriving DecidableEq

/-- Modelled from the spec: one postgres-changes subscription entry inside a
join config: change type, schema, table and optional row filter. -/
structure PostgresChange where
  event : PostgresChangesEvent
  schema : String
  table : String
  filter : Option String
deriving DecidableEq

/-- Modelled from the spec: join configuration. -/
structure JoinConfig where
  broadcast : BroadcastConfig
  presence : PresenceConfig
  postgres_changes : List PostgresChange
deriving DecidableEq

/-- Modelled from the spec: payload of a join message: config plus token. -/
structure JoinPayload where
  config : JoinConfig
  access_token : String
deriving DecidableEq

/-- Modelled from the spec: broadcast payload: event name and key-value map. -/
structure BroadcastPayload where
  event : String
  payload : List (String × Value)
deriving DecidableEq

/-- Modelled from the spec: data of a postgres change notification:
change type, schema, table, optional matched row filter, and row data. -/
structure PostgresChangesData where
  change_type : PostgresChangesEvent
  schema : String
  table : String
  filter : Option String
  record : List (String × Value)
deriving DecidableEq

/-- Modelled from the spec: postgres change notification payload. -/
structure PostgresChangesPayload where
  data : PostgresChangesData
deriving DecidableEq

/-- Modelled from the spec: response payload used for join acknowledgements. -/
structure ResponsePayload where
  status : PayloadStatus
deriving DecidableEq

/-- Modelled from the spec: access token payload. -/
structure AccessTokenPayload where
  access_token : String
deriving DecidableEq

/-- Modelled from the spec: the tagged payload union of a RealtimeMessage
(message::payload::Payload, module missing from the sources), with the
variants listed in section 3 of the spec. -/
inductive Payload where
  | join (p : JoinPayload)
  | broadcast (p : BroadcastPayload)
  | presenceTrack (m : List (String × Value))
  | presenceState (s : RawPresenceState)
  | presenceDiff (d : RawPresenceDiff)
  | postgresChanges (p : PostgresChangesPayload)
  | accessToken (p : AccessTokenPayload)
  | response (r : ResponsePayload)
  | empty
deriving DecidableEq

/-- The wire message: event tag, topic, payload and optional correlation ref
(message::realtime_message::RealtimeMessage, shape fixed by section 3 and by
every use in channel.rs and client.rs).  Uuid refs are embedded as String. -/
structure RealtimeMessage where
  event : MessageEvent
  topic : String
  payload : Payload
  message_ref : Option String
deriving DecidableEq

/-- Modelled from the spec: RealtimeMessage::heartbeat() from the missing
message module; a periodic keep-alive frame (sections 4.4 and glossary). -/
def RealtimeMessage.heartbeat : RealtimeMessage :=
  { event := MessageEvent.heartbeat, topic := "phoenix"
    payload := Payload.empty, message_ref := none }

/-- Modelled from the spec: postgres change filter
(message::postgres_change_filter::PostgresChangeFilter, module missing from
the sources): schema, optional table, optional row filter expression. -/
structure PostgresChangeFilter where
  schema : String
  table : Option String
  filter : Option String
deriving DecidableEq

/-- Modelled from the spec: PostgresChangeFilter::check (module missing from
the sources).  Section 4.3: schema equality is required; table match is
required only if the filter specifies a table; row-filter match is required
only if the filter specifies one.  Returns the message on a match. -/
def PostgresChangeFilter.check (f : PostgresChangeFilter)
    (message : RealtimeMessage) : Option RealtimeMessage :=
  match message.payload with
  | Payload.postgresChanges p =>
    if f.schema ≠ p.data.schema then none
    else
      match f.table with
      | some t =>
        if t ≠ p.data.table then none
        else
          match f.filter with
          | some flt => if some flt = p.data.filter then some message else none
          | none => some message
      | none =>
        match f.filter with
        | some flt => if some flt = p.data.filter then some message else none
        | none => some message
  | _ => none

/-! ## Channel state machine (channel.rs) -/

/-- Channel states (channel.rs ChannelState). -/
inductive ChannelState where
  | closed
  | errored
  | joined
  | joining
  | leaving
deriving DecidableEq

/-- One recorded invocation of a channel-level callback.  CDC and broadcast
closures are embedded as numeric identifiers; presence callbacks reuse the
presence trace entries. -/
inductive CallbackCall where
  | presence (c : PresenceCall)
  | cdc (cb : Nat) (payload : PostgresChangesPayload)
  | broadcast (cb : Nat) (payload : List (String × Value))
deriving DecidableEq

/-- The per-topic channel (channel.rs RealtimeChannel).  The crossbeam sender
tx into the client outbound queue is embedded by threading that queue through
the sending operations; the manager bridge receiver is an external-caller
input and is not part of the state. -/
structure RealtimeChannel where
  topic : String
  connection_state : ChannelState
  id : String
  cdc_callbacks : List (PostgresChangesEvent × List (PostgresChangeFilter × Nat))
  broadcast_callbacks : List (String × List Nat)
  join_payload : JoinPayload
  presence : Presence

/-- RealtimeChannel::channel_state (channel.rs 146-148). -/
def RealtimeChannel.channel_state (c : RealtimeChannel) : ChannelState :=
  c.connection_state

/-- RealtimeChannel::subscribe (channel.rs 152-163): build a join message
carrying the join payload with the channel id as correlation ref, set the
state to Joining, then push the message on the outbound queue. -/
def RealtimeChannel.subscribe (c : RealtimeChannel)
    (outbound : List RealtimeMessage) :
    RealtimeChannel × List RealtimeMessage :=
  let join_message : RealtimeMessage :=
    { event := MessageEvent.phxJoin, topic := c.topic
      payload := Payload.join c.join_payload, message_ref := some c.id }
  ({ c with connection_state := ChannelState.joining },
    outbound ++ [join_message])

/-- RealtimeChannel::send (channel.rs 215-225): overwrite the message topic
with the channel topic, fail with the message if the channel is Leaving
(the queue is left untouched), otherwise push onto the outbound queue. -/
def RealtimeChannel.send (c : RealtimeChannel) (message : RealtimeMessage)
    (outbound : List RealtimeMessage) :
    List RealtimeMessage × Except RealtimeMessage Unit :=
  let message := { message with topic := c.topic }
  if c.connection_state = ChannelState.leaving then
    (outbound, Except.error message)
  else
    (outbound ++ [message], Except.ok ())

/-- RealtimeChannel::unsubscribe (channel.rs 166-187): no-op returning the
current state when Closed or Leaving; otherwise send a leave message with
correlation ref id+leave and on success set the state to Leaving. -/
def RealtimeChannel.unsubscribe (c : RealtimeChannel)
    (outbound : List RealtimeMessage) :
    RealtimeChannel × List RealtimeMessage × Except RealtimeMessage ChannelState :=
  if c.connection_state = ChannelState.closed
      ∨ c.connection_state = ChannelState.leaving then
    (c, outbound, Except.ok c.connection_state)
  else
    let message : RealtimeMessage :=
      { event := MessageEvent.phxLeave, topic := c.topic
        payload := Payload.empty, message_ref := some (c.id ++ "+leave") }
    match c.send message outbound with
    | (q, Except.ok ()) =>
      ({ c with connection_state := ChannelState.leaving }, q,
        Except.ok ChannelState.leaving)
    | (q, Except.error e) => (c, q, Except.error e)

/-- RealtimeChannel::presence_state (channel.rs 190-192). -/
def RealtimeChannel.presence_state (c : RealtimeChannel) : PresenceState :=
  c.presence.state

/-- RealtimeChannel::track (channel.rs 195-202). -/
def RealtimeChannel.track (c : RealtimeChannel)
    (payload : List (String × Value)) (outbound : List RealtimeMessage) :
    List RealtimeMessage × Except RealtimeMessage Unit :=
  c.send
    { event := MessageEvent.presence, topic := c.topic
      payload := Payload.presenceTrack payload, message_ref := none }
    outbound

/-- RealtimeChannel::untrack (channel.rs 205-212). -/
def RealtimeChannel.untrack (c : RealtimeChannel)
    (outbound : List RealtimeMessage) :
    List RealtimeMessage × Except RealtimeMessage Unit :=
  c.send
    { event := MessageEvent.untrack, topic := c.topic
      payload := Payload.empty, message_ref := none }
    outbound

/-- RealtimeChannel::broadcast (channel.rs 228-235). -/
def RealtimeChannel.broadcast (c : RealtimeChannel) (payload : BroadcastPayload)
    (outbound : List RealtimeMessage) :
    List RealtimeMessage × Except RealtimeMessage Unit :=
  c.send
    { event := MessageEvent.broadcast, topic := ""
      payload := Payload.broadcast payload, message_ref := none }
    outbound

/-- RealtimeChannel::set_auth (channel.rs 237-255): store the token in the
join payload; only when currently Joined also send an AccessToken message. -/
def RealtimeChannel.set_auth (c : RealtimeChannel) (access_token : String)
    (outbound : List RealtimeMessage) :
    RealtimeChannel × List RealtimeMessage × Except RealtimeMessage Unit :=
  let c := { c with join_payload :=
    { c.join_payload with access_token := access_token } }
  if c.connection_state ≠ ChannelState.joined then
    (c, outbound, Except.ok ())
  else
    let access_token_message : RealtimeMessage :=
      { event := MessageEvent.accessToken, topic := c.topic
        payload := Payload.accessToken { access_token := access_token }
        message_ref := none }
    let r := c.send access_token_message outbound
    (c, r.1, r.2)

/-- The trailing event match of RealtimeChannel::recieve (channel.rs 307-325):
a PhxClose whose ref equals the channel id, or a PhxReply whose ref equals
id+leave, closes the channel. -/
def RealtimeChannel.recieveEvent (c : RealtimeChannel)
    (message : RealtimeMessage) : RealtimeChannel :=
  match message.event with
  | MessageEvent.phxClose =>
    match message.message_ref with
    | some message_ref =>
      if message_ref = c.id then
        { c with connection_state := ChannelState.closed }
      else c
    | none => c
  | MessageEvent.phxReply =>
    if message.message_ref.getD "#NOREF" = c.id ++ "+leave" then
      { c with connection_state := ChannelState.closed }
    else c
  | _ => c

/-- RealtimeChannel::recieve (channel.rs 257-326): dispatch on the payload
(with an early return when a Response ref does not match the channel id),
then on the event tag.  Callback invocations are returned as a trace. -/
def RealtimeChannel.recieve (c : RealtimeChannel) (message : RealtimeMessage) :
    RealtimeChannel × List CallbackCall :=
  match message.payload with
  | Payload.response join_response =>
    let target_id := (message.message_ref).getD ""
    if target_id ≠ c.id then (c, [])
    else
      let c :=
        if join_response.status = PayloadStatus.ok then
          { c with connection_state := ChannelState.joined }
        else c
      (c.recieveEvent message, [])
  | Payload.presenceState state =>
    let r := c.presence.sync (rawToPresenceState state)
    let c := { c with presence := r.1 }
    (c.recieveEvent message, r.2.map CallbackCall.presence)
  | Payload.presenceDiff raw_diff =>
    let r := c.presence.sync_diff (rawToPresenceDiff raw_diff)
    let c := { c with presence := r.1 }
    (c.recieveEvent message, r.2.map CallbackCall.presence)
  | Payload.postgresChanges payload =>
    let event := payload.data.change_type
    let specific := Assoc.getD c.cdc_callbacks event []
    let calls1 := specific.filterMap (fun fc =>
      if (fc.1.check message).isSome then some (CallbackCall.cdc fc.2 payload)
      else none)
    let wildcard := Assoc.getD c.cdc_callbacks PostgresChangesEvent.all []
    let calls2 := wildcard.filterMap (fun fc =>
      if (fc.1.check message).isSome then some (CallbackCall.cdc fc.2 payload)
      else none)
    (c.recieveEvent message, calls1 ++ calls2)
  | Payload.broadcast payload =>
    let calls :=
      match Assoc.lookupKey c.broadcast_callbacks payload.event with
      | some callbacks =>
        callbacks.map (fun cb => CallbackCall.broadcast cb payload.payload)
      | none => []
    (c.recieveEvent message, calls)
  | _ => (c.recieveEvent message, [])

end Rt

namespace Rt

/-! ## Claim theorems: channel state machine -/

theorem append_leave_ne (s : String) : s ++ "+leave" ≠ s := by
  intro h
  have h2 := congrArg String.length h
  rw [String.length_append] at h2
  have h3 : ("+leave" : String).length = 6 := rfl
  rw [h3] at h2
  omega

/-- C3: starting from Closed, subscribe leaves the channel Joining; a Response
with correlation ref equal to the channel id and status Ok then yields Joined,
while a Response with any other correlation ref leaves the state at Joining. -/
theorem C3_join_acknowledgement (c : RealtimeChannel)
    (q : List RealtimeMessage) (r : String)
    (_hstart : c.connection_state = ChannelState.closed)
    (hr : r ≠ c.id) :
    (c.subscribe q).1.connection_state = ChannelState.joining
  ∧ ((c.subscribe q).1.recieve
      { event := MessageEvent.phxReply, topic := c.topic
        payload := Payload.response { status := PayloadStatus.ok }
        message_ref := some c.id }).1.connection_state = ChannelState.joined
  ∧ ((c.subscribe q).1.recieve
      { event := MessageEvent.phxReply, topic := c.topic
        payload := Payload.response { status := PayloadStatus.ok }
        message_ref := some r }).1.connection_state = ChannelState.joining := by
  refine ⟨rfl, ?_, ?_⟩
  · simp [RealtimeChannel.subscribe, RealtimeChannel.recieve,
      RealtimeChannel.recieveEvent, Ne.symm (append_leave_ne c.id)]
  · simp [RealtimeChannel.subscribe, RealtimeChannel.recieve, hr]

def testJoinPayload : JoinPayload :=
  { config :=
      { broadcast := { broadcast_self := false, ack := false }
        presence := { key := none }
        postgres_changes := [] }
    access_token := "token" }

def chanClosed : RealtimeChannel :=
  { topic := "realtime:test", connection_state := ChannelState.closed
    id := "c1", cdc_callbacks := [], broadcast_callbacks := []
    join_payload := testJoinPayload
    presence := { state := ⟨[]⟩, callbacks := [] } }

/-- Witness for C3 at a concrete closed channel and a foreign ref. -/
theorem C3_join_acknowledgement_witness :
    (chanClosed.subscribe []).1.connection_state = ChannelState.joining
  ∧ ((chanClosed.subscribe []).1.recieve
      { event := MessageEvent.phxReply, topic := chanClosed.topic
        payload := Payload.response { status := PayloadStatus.ok }
        message_ref := some chanClosed.id }).1.connection_state
      = ChannelState.joined
  ∧ ((chanClosed.subscribe []).1.recieve
      { event := MessageEvent.phxReply, topic := chanClosed.topic
        payload := Payload.response { status := PayloadStatus.ok }
        message_ref := some "other" }).1.connection_state
      = ChannelState.joining :=
  C3_join_acknowledgement chanClosed [] "other" rfl (by decide)

/-- C9: a Response whose correlation ref equals the channel id and whose
status is Ok puts the channel in Joined from every starting state, Closed,
Leaving and Errored included, because recieve never consults the current
state before assigning Joined. -/
theorem C9_response_ok_joins_from_any_state (c : RealtimeChannel) :
    (c.recieve
      { event := MessageEvent.phxReply, topic := c.topic
        payload := Payload.response { status := PayloadStatus.ok }
        message_ref := some c.id }).1.connection_state = ChannelState.joined := by
  simp [RealtimeChannel.recieve, RealtimeChannel.recieveEvent,
    Ne.symm (append_leave_ne c.id)]

/-- C7: on a channel in Leaving state every outbound send routed through the
channel, broadcast, track and untrack, fails synchronously with the rejected
message as the error, and the outbound queue is left unchanged. -/
theorem C7_send_while_leaving_fails (c : RealtimeChannel)
    (q : List RealtimeMessage) (bp : BroadcastPayload)
    (tp : List (String × Value))
    (h : c.connection_state = ChannelState.leaving) :
    c.broadcast bp q = (q, Except.error
      { event := MessageEvent.broadcast, topic := c.topic
        payload := Payload.broadcast bp, message_ref := none })
  ∧ c.track tp q = (q, Except.error
      { event := MessageEvent.presence, topic := c.topic
        payload := Payload.presenceTrack tp, message_ref := none })
  ∧ c.untrack q = (q, Except.error
      { event := MessageEvent.untrack, topic := c.topic
        payload := Payload.empty, message_ref := none }) := by
  refine ⟨?_, ?_, ?_⟩ <;>
    simp [RealtimeChannel.broadcast, RealtimeChannel.track,
      RealtimeChannel.untrack, RealtimeChannel.send, h]

def chanLeaving : RealtimeChannel :=
  { chanClosed with connection_state := ChannelState.leaving }

/-- Witness for C7 at a concrete leaving channel with a nonempty queue. -/
theorem C7_send_while_leaving_fails_witness :
    chanLeaving.broadcast { event := "e", payload := [] }
        [RealtimeMessage.heartbeat]
      = ([RealtimeMessage.heartbeat], Except.error
        { event := MessageEvent.broadcast, topic := chanLeaving.topic
          payload := Payload.broadcast { event := "e", payload := [] }
          message_ref := none })
  ∧ chanLeaving.track [] [RealtimeMessage.heartbeat]
      = ([RealtimeMessage.heartbeat], Except.error
        { event := MessageEvent.presence, topic := chanLeaving.topic
          payload := Payload.presenceTrack [], message_ref := none })
  ∧ chanLeaving.untrack [RealtimeMessage.heartbeat]
      = ([RealtimeMessage.heartbeat], Except.error
        { event := MessageEvent.untrack, topic := chanLeaving.topic
          payload := Payload.empty, message_ref := none }) :=
  C7_send_while_leaving_fails chanLeaving [RealtimeMessage.heartbeat]
    { event := "e", payload := [] } [] rfl

end Rt

namespace Rt

/-! ## Connection manager (client.rs)

The websocket is embedded as a scripted endpoint: frames the server will
deliver sit in inScript, frames written by the client accumulate in sent,
and a responder function models the remote server by appending reply frames
whenever the client writes.  SystemTime::now() is embedded as the field now,
held constant during a call; Uuid::new_v4 for auto-generated refs is embedded
as a counter.  The unbounded loops in disconnect are embedded with a fuel
parameter that only bounds the number of loop iterations taken. -/

/-- Connection states (client.rs ConnectionState).  The Rust variant Open is
named opened here because open is a Lean keyword. -/
inductive ConnectionState where
  | reconnect
  | reconnecting
  | connecting
  | opened
  | closing
  | closed
deriving DecidableEq

/-- Socket errors (client.rs SocketError). -/
inductive SocketError where
  | noSocket
  | noRead
  | noWrite
  | disconnected
  | wouldBlock
  | tooManyRetries
  | handshakeError
deriving DecidableEq

/-- Monitor errors (client.rs MonitorError). -/
inductive MonitorError where
  | reconnectError
  | maxReconnects
  | wouldBlock
  | disconnected
deriving DecidableEq

/-- Step errors (client.rs NextMessageError). -/
inductive NextMessageError where
  | wouldBlock
  | tryRecvError
  | noChannel
  | channelClosed
  | clientClosed
  | socketError (e : SocketError)
  | monitorError (e : MonitorError)
deriving DecidableEq

/-- Connect errors (client.rs ConnectError). -/
inductive ConnectError where
  | badUri
  | badHost
  | badAddrs
  | streamError
  | noDelayError
  | nonblockingError
  | handshakeError
  | maxRetries
  | wrongProtocol
deriving DecidableEq

/-- Monitor signal (client.rs MonitorSignal). -/
inductive MonitorSignal where
  | reconnect
deriving DecidableEq

/-- One inbound frame of the scripted websocket: a text frame carrying a
decoded message, a close frame, a ping-like frame (the do-nothing read arm),
or a non-would-block io error. -/
inductive SocketFrame where
  | text (message : RealtimeMessage)
  | closeFrame
  | ping
  | ioError

/-- The scripted websocket endpoint. -/
structure Socket where
  canRead : Bool
  canWrite : Bool
  inScript : List SocketFrame
  sent : List RealtimeMessage
  closed : Bool
  responder : RealtimeMessage → List SocketFrame

/-- Writing a frame on the socket: record it and let the scripted server
append its replies to the inbound script. -/
def Socket.sendMsg (s : Socket) (m : RealtimeMessage) : Socket :=
  { s with sent := s.sent ++ [m], inScript := s.inScript ++ s.responder m }

/-- The realtime client (client.rs Client).  The crossbeam command-bridge
queues (manager_rx on the client and on each channel) are external-caller
inputs and are embedded as empty; encode and decode are the optional hooks;
connect_result is the environment model of the network used by connect. -/
structure Client where
  access_token : String
  connection_state : ConnectionState
  socket : Option Socket
  channels : List RealtimeChannel
  messages_this_second : List Nat
  next_ref : Nat
  outbound : List RealtimeMessage
  inbound : List RealtimeMessage
  monitor_queue : List MonitorSignal
  middleware : List (RealtimeMessage → RealtimeMessage)
  reconnect_now : Option Nat
  reconnect_delay : Nat
  reconnect_attempts : Nat
  heartbeat_now : Option Nat
  heartbeat_interval : Nat
  reconnect_interval : Nat → Nat
  reconnect_max_attempts : Nat
  encode : Option (RealtimeMessage → RealtimeMessage)
  decode : Option (RealtimeMessage → RealtimeMessage)
  max_events_per_second : Nat
  now : Nat
  trace : List CallbackCall
  connect_result : Option Socket

/-- Client::send (client.rs 457-459): push onto the outbound queue. -/
def Client.send (cl : Client) (msg : RealtimeMessage) : Client :=
  { cl with outbound := cl.outbound ++ [msg] }

/-- Client::run_middleware (client.rs 660-665).  The Rust registry iterates
HashMap values in unspecified order; the embedding applies them in list
order. -/
def Client.run_middleware (cl : Client) (message : RealtimeMessage) :
    RealtimeMessage :=
  cl.middleware.foldl (fun m f => f m) message

/-- Client::reconnect (client.rs 912-915): set the Reconnect state and queue
a reconnect signal for the monitor. -/
def Client.reconnect (cl : Client) : Client :=
  { cl with
    connection_state := ConnectionState.reconnect
    monitor_queue := cl.monitor_queue ++ [MonitorSignal.reconnect] }

/-- Modelled from the spec: Client::connect (client.rs 260-435) performs real
network I/O: uri building, TCP connect, TLS, websocket handshake, with
in-call retries driven by sleep.  It is abstracted by the environment field
connect_result: some socket means the connect succeeds, installing that
socket, resetting the attempt counter and setting the state Open (spec 4.4);
none means it fails. -/
def Client.connect (cl : Client) : Client × Except ConnectError Unit :=
  match cl.connect_result with
  | some s =>
    ({ cl with
        socket := some s
        connection_state := ConnectionState.opened
        reconnect_attempts := 0 }, Except.ok ())
  | none => (cl, Except.error ConnectError.streamError)

/-- The resubscribe loop on reconnect success (client.rs 766-771). -/
def Client.resubscribeChannels (cl : Client) : Client :=
  let r := cl.channels.foldl
    (fun (acc : List RealtimeChannel × List RealtimeMessage) ch =>
      let s := ch.subscribe acc.2
      (acc.1 ++ [s.1], s.2))
    ([], cl.outbound)
  { cl with channels := r.1, outbound := r.2 }

/-- The per-iteration unsubscribe sweep of remove_all_channels
(client.rs 688-704): unsubscribe every channel, collecting whether all of
them reported Closed.  The flag starts true and an unsubscribe error leaves
it untouched, exactly as in the source. -/
def Client.unsubscribeChannels (cl : Client) : Client × Bool :=
  let r := cl.channels.foldl
    (fun (acc : List RealtimeChannel × List RealtimeMessage × Bool) ch =>
      let u := ch.unsubscribe acc.2.1
      let allClosed :=
        match u.2.2 with
        | Except.ok st => if st ≠ ChannelState.closed then false else acc.2.2
        | Except.error _ => acc.2.2
      (acc.1 ++ [u.1], u.2.1, allClosed))
    ([], cl.outbound, true)
  ({ cl with channels := r.1, outbound := r.2.1 }, r.2.2)

/-- Client::run_heartbeat (client.rs 786-798): arm the timer if unset,
return while the interval has not elapsed, otherwise clear the timer and
enqueue a heartbeat message. -/
def Client.run_heartbeat (cl : Client) : Client :=
  let cl :=
    if cl.heartbeat_now = none then { cl with heartbeat_now := some cl.now }
    else cl
  if cl.now < cl.heartbeat_now.getD 0 + cl.heartbeat_interval then cl
  else
    let cl := { cl with heartbeat_now := none }
    cl.send RealtimeMessage.heartbeat

/-- Client::run_monitor (client.rs 740-784): arm the backoff window if unset,
pop a pending reconnect signal, refuse while open, mid-reconnect or inside
the backoff window, fail fatally past the attempt cap, otherwise count the
attempt and connect, resubscribing every channel on success.  The crossbeam
Disconnected arm cannot occur with both queue ends alive and has no
counterpart here. -/
def Client.run_monitor (cl : Client) : Client × Except MonitorError Unit :=
  let cl :=
    if cl.reconnect_now = none then
      { cl with
        reconnect_now := some cl.now
        reconnect_delay := cl.reconnect_interval cl.reconnect_attempts }
    else cl
  match cl.monitor_queue with
  | [] => (cl, Except.error MonitorError.wouldBlock)
  | MonitorSignal.reconnect :: rest =>
    let cl := { cl with monitor_queue := rest }
    if cl.connection_state = ConnectionState.opened
        ∨ cl.connection_state = ConnectionState.reconnecting
        ∨ cl.now < cl.reconnect_now.getD 0 + cl.reconnect_delay then
      (cl, Except.error MonitorError.wouldBlock)
    else if cl.reconnect_max_attempts ≤ cl.reconnect_attempts then
      (cl, Except.error MonitorError.maxReconnects)
    else
      let cl := { cl with
        connection_state := ConnectionState.reconnecting
        reconnect_attempts := cl.reconnect_attempts + 1
        reconnect_now := none }
      match cl.connect with
      | (cl, Except.ok _) => (cl.resubscribeChannels, Except.ok ())
      | (cl, Except.error _e) =>
        ({ cl with connection_state := ConnectionState.reconnect },
          Except.error MonitorError.reconnectError)

/-- Client::write_socket (client.rs 851-910): require a writable socket,
refresh the sliding one-second window of send timestamps, defer with
WouldBlock when the window is full, otherwise pop one outbound message,
give it a fresh correlation ref if it has none, apply the encode hook and
write it, recording the send time.  The crossbeam Disconnected arm cannot
occur with both queue ends alive and has no counterpart here. -/
def Client.write_socket (cl : Client) : Client × Except SocketError Unit :=
  match cl.socket with
  | none => (cl, Except.error SocketError.noSocket)
  | some socket =>
    if ¬ socket.canWrite then (cl, Except.error SocketError.noWrite)
    else
      let now := cl.now
      let mts := cl.messages_this_second.filter
        (fun st => decide (now - st < 1000))
      let cl := { cl with messages_this_second := mts }
      if cl.max_events_per_second ≤ mts.length then
        (cl, Except.error SocketError.wouldBlock)
      else
        match cl.outbound with
        | [] => (cl, Except.ok ())
        | message :: rest =>
          let cl := { cl with outbound := rest }
          let p :=
            if message.message_ref = none then
              ({ message with message_ref := some (toString cl.next_ref) },
                { cl with next_ref := cl.next_ref + 1 })
            else (message, cl)
          let message := p.1
          let cl := p.2
          let message :=
            match cl.encode with
            | some f => f message
            | none => message
          ({ cl with
              socket := some (socket.sendMsg message)
              messages_this_second := mts ++ [now] }, Except.ok ())

mutual

/-- Client::read_socket (client.rs 800-849): require a readable socket; an
empty script is the io WouldBlock arm and succeeds doing nothing; a text
frame is decoded, passed through the decode hook and queued inbound; a close
frame triggers disconnect and reports Disconnected; a ping-like frame
reports WouldBlock; any other io error sets Reconnect, queues a monitor
signal and reports WouldBlock. -/
def Client.read_socket : Nat → Client → Client × Except SocketError Unit
  | fuel, cl =>
    match cl.socket with
    | none => (cl, Except.error SocketError.noSocket)
    | some socket =>
      if ¬ socket.canRead then (cl, Except.error SocketError.noRead)
      else
        match socket.inScript with
        | [] => (cl, Except.ok ())
        | frame :: rest =>
          let cl := { cl with socket := some { socket with inScript := rest } }
          match frame with
          | SocketFrame.text message =>
            let message :=
              match cl.decode with
              | some f => f message
              | none => message
            ({ cl with inbound := cl.inbound ++ [message] }, Except.ok ())
          | SocketFrame.closeFrame =>
            match fuel with
            | 0 => (cl, Except.error SocketError.disconnected)
            | fuel + 1 =>
              (Client.disconnect fuel cl, Except.error SocketError.disconnected)
          | SocketFrame.ping => (cl, Except.error SocketError.wouldBlock)
          | SocketFrame.ioError =>
            ({ cl with
                connection_state := ConnectionState.reconnect
                monitor_queue := cl.monitor_queue ++ [MonitorSignal.reconnect] },
              Except.error SocketError.wouldBlock)

/-- Client::next_message (client.rs 569-650), head part: drain the command
bridge (empty here), dispatch on the connection state, run the monitor and,
on a fatal MaxReconnects, disconnect.  The remainder of the body continues
in next_message_io. -/
def Client.next_message :
    Nat → Client → Client × Except NextMessageError (List String)
  | 0, cl => (cl, Except.error NextMessageError.wouldBlock)
  | fuel + 1, cl =>
    match cl.connection_state with
    | ConnectionState.closed => (cl, Except.error NextMessageError.clientClosed)
    | ConnectionState.reconnect =>
      let cl := { cl with
        monitor_queue := cl.monitor_queue ++ [MonitorSignal.reconnect] }
      (cl, Except.error (NextMessageError.socketError SocketError.disconnected))
    | ConnectionState.reconnecting =>
      (cl, Except.error NextMessageError.wouldBlock)
    | _ =>
      match Client.run_monitor cl with
      | (cl, Except.error MonitorError.maxReconnects) =>
        (Client.disconnect fuel cl,
          Except.error (NextMessageError.monitorError MonitorError.maxReconnects))
      | (cl, Except.error MonitorError.wouldBlock) => Client.next_message_io fuel cl
      | (cl, Except.ok _) => Client.next_message_io fuel cl
      | (cl, Except.error e) =>
        (cl, Except.error (NextMessageError.monitorError e))

/-- Client::next_message (client.rs 610-650), tail part: heartbeat, write
with tolerated WouldBlock, read with tolerated WouldBlock turned into a
reconnect on other errors, then pop one inbound message, run the middleware
and deliver it to every channel whose topic matches, returning their ids. -/
def Client.next_message_io :
    Nat → Client → Client × Except NextMessageError (List String)
  | 0, cl => (cl, Except.error NextMessageError.wouldBlock)
  | fuel + 1, cl =>
    let cl := Client.run_heartbeat cl
    match Client.write_socket cl with
    | (cl, Except.error SocketError.wouldBlock) => Client.next_message_read fuel cl
    | (cl, Except.ok _) => Client.next_message_read fuel cl
    | (cl, Except.error e) =>
      (cl.reconnect, Except.error (NextMessageError.socketError e))

/-- Client::next_message (client.rs 621-650), read-and-route part. -/
def Client.next_message_read :
    Nat → Client → Client × Except NextMessageError (List String)
  | 0, cl => (cl, Except.error NextMessageError.wouldBlock)
  | fuel + 1, cl =>
    match Client.read_socket fuel cl with
    | (cl, Except.ok _) =>
      match cl.inbound with
      | [] => (cl, Except.error NextMessageError.wouldBlock)
      | message :: rest =>
        let cl := { cl with inbound := rest }
        let message := cl.run_middleware message
        let r := cl.channels.foldl
          (fun (acc : List RealtimeChannel × List CallbackCall × List String) ch =>
            if ch.topic = message.topic then
              let rc := ch.recieve message
              (acc.1 ++ [rc.1], acc.2.1 ++ rc.2, acc.2.2 ++ [ch.id])
            else (acc.1 ++ [ch], acc.2.1, acc.2.2))
          ([], [], [])
        let cl := { cl with channels := r.1, trace := cl.trace ++ r.2.1 }
        (cl, Except.ok r.2.2)
    | (cl, Except.error e) =>
      (cl.reconnect, Except.error (NextMessageError.socketError e))

/-- Client::disconnect (client.rs 438-454): no-op when already Closed;
otherwise remove all channels, set Closed and close the socket when there is
one. -/
def Client.disconnect : Nat → Client → Client
  | fuel, cl =>
    if cl.connection_state = ConnectionState.closed then cl
    else
      let cl :=
        match fuel with
        | 0 => cl
        | fuel + 1 => Client.remove_all_channels fuel cl
      let cl := { cl with connection_state := ConnectionState.closed }
      match cl.socket with
      | none => cl
      | some socket => { cl with socket := some { socket with closed := true } }

/-- Client::remove_all_channels (client.rs 667-713): no-op when Closing or
Closed; otherwise set Closing, drive the step loop until it reports
WouldBlock, then loop stepping and unsubscribing every channel until all of
them report Closed, and finally clear the registry. -/
def Client.remove_all_channels : Nat → Client → Client
  | fuel, cl =>
    if cl.connection_state = ConnectionState.closing
        ∨ cl.connection_state = ConnectionState.closed then cl
    else
      let cl := { cl with connection_state := ConnectionState.closing }
      match fuel with
      | 0 => cl
      | fuel + 1 =>
        let cl := Client.drain_loop fuel cl
        let cl := Client.close_loop fuel cl
        { cl with channels := [] }

/-- The first loop of remove_all_channels (client.rs 677-683): step until the
step reports WouldBlock. -/
def Client.drain_loop : Nat → Client → Client
  | 0, cl => cl
  | fuel + 1, cl =>
    let r := Client.next_message fuel cl
    match r.2 with
    | Except.error NextMessageError.wouldBlock => r.1
    | _ => Client.drain_loop fuel r.1

/-- The second loop of remove_all_channels (client.rs 685-710): step, then
unsubscribe every channel, until all channels report Closed. -/
def Client.close_loop : Nat → Client → Client
  | 0, cl => cl
  | fuel + 1, cl =>
    let r := Client.next_message fuel cl
    let u := Client.unsubscribeChannels r.1
    if u.2 then u.1
    else Client.close_loop fuel u.1

end

/-- Client::remove_channel (client.rs 480-492): when the id is registered,
remove the channel from the registry, unsubscribe it, disconnect the whole
client when the registry became empty, and return the channel; otherwise
return none leaving the client untouched. -/
def Client.remove_channel (fuel : Nat) (cl : Client) (channel_id : String) :
    Client × Option RealtimeChannel :=
  match cl.channels.find? (fun ch => ch.id == channel_id) with
  | some channel =>
    let cl := { cl with
      channels := cl.channels.filter (fun ch => ch.id != channel_id) }
    let u := channel.unsubscribe cl.outbound
    let cl := { cl with outbound := u.2.1 }
    let cl := if cl.channels.isEmpty then Client.disconnect fuel cl else cl
    (cl, some u.1)
  | none => (cl, none)

end Rt

namespace Rt

/-! ## Concrete client fixtures -/

/-- A silent remote peer: never replies. -/
def plainResponder : RealtimeMessage → List SocketFrame := fun _ => []

def sockW : Socket :=
  { canRead := true
    canWrite := true
    inScript := []
    sent := []
    closed := false
    responder := plainResponder }

/-- A remote peer that acknowledges every leave request with a PhxReply
carrying the same correlation ref, as the protocol prescribes. -/
def leaveAckResponder : RealtimeMessage → List SocketFrame := fun m =>
  match m.event with
  | MessageEvent.phxLeave =>
    [SocketFrame.text
      { event := MessageEvent.phxReply, topic := m.topic
        payload := Payload.empty, message_ref := m.message_ref }]
  | _ => []

def sockAck : Socket :=
  { sockW with responder := leaveAckResponder }

/-- A freshly connected client with ClientBuilder defaults for the heartbeat
interval and the throttle cap, the default backoff, and the timers armed so
that no heartbeat is due at the frozen model time. -/
def baseClient : Client :=
  { access_token := "token"
    connection_state := ConnectionState.opened
    socket := some sockW
    channels := []
    messages_this_second := []
    next_ref := 0
    outbound := []
    inbound := []
    monitor_queue := []
    middleware := []
    reconnect_now := none
    reconnect_delay := 0
    reconnect_attempts := 0
    heartbeat_now := some 0
    heartbeat_interval := 29000
    reconnect_interval := backoff
    reconnect_max_attempts := 100
    encode := none
    decode := none
    max_events_per_second := 10
    now := 0
    trace := []
    connect_result := none }

/-- The frames written so far, empty when there is no socket. -/
def socketSent (cl : Client) : List RealtimeMessage :=
  match cl.socket with
  | some s => s.sent
  | none => []

/-- One write_socket cycle taken at wall-clock time t. -/
def writeAt (t : Nat) (cl : Client) : Client × Except SocketError Unit :=
  Client.write_socket { cl with now := t }

/-- Repeated write_socket cycles at the given sequence of times. -/
def writeRun (ts : List Nat) (cl : Client) : Client :=
  ts.foldl (fun c t => (writeAt t c).1) cl

/-! ## Claim theorems: throttling (C4) -/

def C4msgs (e : Fin 12 → MessageEvent) (tp : Fin 12 → String)
    (pl : Fin 12 → Payload) (rf : Fin 12 → String) : Fin 12 → RealtimeMessage :=
  fun i =>
    { event := e i, topic := tp i, payload := pl i, message_ref := some (rf i) }

def C4c0 (e : Fin 12 → MessageEvent) (tp : Fin 12 → String)
    (pl : Fin 12 → Payload) (rf : Fin 12 → String) : Client :=
  { baseClient with outbound :=
    [C4msgs e tp pl rf 0, C4msgs e tp pl rf 1, C4msgs e tp pl rf 2,
     C4msgs e tp pl rf 3, C4msgs e tp pl rf 4, C4msgs e tp pl rf 5,
     C4msgs e tp pl rf 6, C4msgs e tp pl rf 7, C4msgs e tp pl rf 8,
     C4msgs e tp pl rf 9, C4msgs e tp pl rf 10, C4msgs e tp pl rf 11] }

set_option maxHeartbeats 1600000 in
/-- C4: with max_events_per_second at 10 and twelve arbitrary ref-carrying
messages enqueued, repeated write cycles inside one sliding window write
exactly the first ten in order; the eleventh in-window cycle defers with
WouldBlock leaving the client unchanged and the two remaining messages
queued; once the window has slid (time 1000 ms) the remaining two are
written, so nothing is dropped and the enqueue order is preserved. -/
theorem C4_throttle_fifo (e : Fin 12 → MessageEvent) (tp : Fin 12 → String)
    (pl : Fin 12 → Payload) (rf : Fin 12 → String) :
    socketSent (writeRun (List.replicate 10 0) (C4c0 e tp pl rf))
      = [C4msgs e tp pl rf 0, C4msgs e tp pl rf 1, C4msgs e tp pl rf 2,
         C4msgs e tp pl rf 3, C4msgs e tp pl rf 4, C4msgs e tp pl rf 5,
         C4msgs e tp pl rf 6, C4msgs e tp pl rf 7, C4msgs e tp pl rf 8,
         C4msgs e tp pl rf 9]
  ∧ (writeRun (List.replicate 10 0) (C4c0 e tp pl rf)).outbound
      = [C4msgs e tp pl rf 10, C4msgs e tp pl rf 11]
  ∧ (writeAt 0 (writeRun (List.replicate 10 0) (C4c0 e tp pl rf))).2
      = Except.error SocketError.wouldBlock
  ∧ (writeAt 0 (writeRun (List.replicate 10 0) (C4c0 e tp pl rf))).1
      = writeRun (List.replicate 10 0) (C4c0 e tp pl rf)
  ∧ socketSent (writeRun (List.replicate 12 0 ++ [1000, 1000]) (C4c0 e tp pl rf))
      = [C4msgs e tp pl rf 0, C4msgs e tp pl rf 1, C4msgs e tp pl rf 2,
         C4msgs e tp pl rf 3, C4msgs e tp pl rf 4, C4msgs e tp pl rf 5,
         C4msgs e tp pl rf 6, C4msgs e tp pl rf 7, C4msgs e tp pl rf 8,
         C4msgs e tp pl rf 9, C4msgs e tp pl rf 10, C4msgs e tp pl rf 11]
  ∧ (writeRun (List.replicate 12 0 ++ [1000, 1000]) (C4c0 e tp pl rf)).outbound
      = [] := by
  simp [writeRun, writeAt, Client.write_socket, C4c0, C4msgs, baseClient,
    sockW, plainResponder, Socket.sendMsg, socketSent]

end Rt

namespace Rt

/-! ## Claim theorems: disconnect (C2) and remove_channel (C10) -/

def chanJoined : RealtimeChannel :=
  { topic := "realtime:test"
    connection_state := ChannelState.joined
    id := "c1"
    cdc_callbacks := []
    broadcast_callbacks := []
    join_payload := testJoinPayload
    presence := { state := ⟨[]⟩, callbacks := [] } }

def C2open : Client :=
  { baseClient with socket := some sockAck, channels := [chanJoined] }

def C2closing : Client :=
  { baseClient with
    connection_state := ConnectionState.closing
    channels := [chanJoined] }

/-- C2 counterexample: a client whose connection state is Closing with a
registered channel; disconnect is not a no-op there, it moves the state to
Closed (only the Closed state short-circuits disconnect; the Closing check
sits in remove_all_channels, which is skipped wholesale). -/
theorem C2_disconnect_closing_not_noop :
    C2closing.connection_state = ConnectionState.closing
  ∧ (Client.disconnect 5 C2closing).connection_state = ConnectionState.closed
  ∧ (Client.disconnect 5 C2closing).connection_state
      ≠ C2closing.connection_state := by
  refine ⟨rfl, ?_, ?_⟩ <;>
    simp [Client.disconnect, Client.remove_all_channels, C2closing, baseClient,
      sockW, plainResponder]

/-- C2 amended: disconnect is a no-op only when the state is already Closed;
from Closing it skips channel removal entirely (remove_all_channels returns
early, the registry is untouched) but still sets the state Closed and closes
the socket; from any other state it sets Closing, unsubscribes every channel,
drives the step loop until every channel reports Closed and the queues are
drained, clears the channel registry and sets Closed, shown on a concrete
open client with one joined channel whose leave request the server
acknowledges. -/
theorem C2_disconnect_amended (fuel : Nat) (cl1 cl2 : Client)
    (h1 : cl1.connection_state = ConnectionState.closed)
    (h2 : cl2.connection_state = ConnectionState.closing) :
    Client.disconnect fuel cl1 = cl1
  ∧ (Client.disconnect (fuel + 1) cl2).connection_state = ConnectionState.closed
  ∧ (Client.disconnect (fuel + 1) cl2).channels = cl2.channels
  ∧ (Client.disconnect 20 C2open).connection_state = ConnectionState.closed
  ∧ (Client.disconnect 20 C2open).channels = []
  ∧ socketSent (Client.disconnect 20 C2open)
      = [{ event := MessageEvent.phxLeave, topic := "realtime:test"
           payload := Payload.empty, message_ref := some "c1+leave" }] := by
  have hr : ∀ f, Client.remove_all_channels f cl2 = cl2 := by
    intro f
    cases f <;> simp [Client.remove_all_channels, h2]
  refine ⟨?_, ?_, ?_, ?_, ?_, ?_⟩
  · cases fuel <;> simp [Client.disconnect, h1]
  · cases hs : cl2.socket with
    | none => simp [Client.disconnect, h2, hr, hs]
    | some s => simp [Client.disconnect, h2, hr, hs]
  · cases hs : cl2.socket with
    | none => simp [Client.disconnect, h2, hr, hs]
    | some s => simp [Client.disconnect, h2, hr, hs]
  · simp [Client.disconnect, Client.remove_all_channels, Client.drain_loop,
      Client.close_loop, Client.next_message, Client.next_message_io,
      Client.next_message_read, Client.run_monitor, Client.run_heartbeat,
      Client.write_socket, Client.read_socket, Client.unsubscribeChannels,
      Client.run_middleware, Client.send, Client.reconnect, Socket.sendMsg,
      socketSent, RealtimeChannel.unsubscribe, RealtimeChannel.send,
      RealtimeChannel.recieve, RealtimeChannel.recieveEvent, backoff,
      C2open, baseClient, sockAck, sockW, leaveAckResponder, plainResponder,
      chanJoined, testJoinPayload]
  · simp [Client.disconnect, Client.remove_all_channels, Client.drain_loop,
      Client.close_loop, Client.next_message, Client.next_message_io,
      Client.next_message_read, Client.run_monitor, Client.run_heartbeat,
      Client.write_socket, Client.read_socket, Client.unsubscribeChannels,
      Client.run_middleware, Client.send, Client.reconnect, Socket.sendMsg,
      socketSent, RealtimeChannel.unsubscribe, RealtimeChannel.send,
      RealtimeChannel.recieve, RealtimeChannel.recieveEvent, backoff,
      C2open, baseClient, sockAck, sockW, leaveAckResponder, plainResponder,
      chanJoined, testJoinPayload]
  · simp [Client.disconnect, Client.remove_all_channels, Client.drain_loop,
      Client.close_loop, Client.next_message, Client.next_message_io,
      Client.next_message_read, Client.run_monitor, Client.run_heartbeat,
      Client.write_socket, Client.read_socket, Client.unsubscribeChannels,
      Client.run_middleware, Client.send, Client.reconnect, Socket.sendMsg,
      socketSent, RealtimeChannel.unsubscribe, RealtimeChannel.send,
      RealtimeChannel.recieve, RealtimeChannel.recieveEvent, backoff,
      C2open, baseClient, sockAck, sockW, leaveAckResponder, plainResponder,
      chanJoined, testJoinPayload]

def C2closed : Client :=
  { baseClient with connection_state := ConnectionState.closed }

/-- Witness for C2 amended at a concrete closed and a concrete closing
client. -/
theorem C2_disconnect_amended_witness :
    Client.disconnect 5 C2closed = C2closed
  ∧ (Client.disconnect (5 + 1) C2closing).connection_state
      = ConnectionState.closed
  ∧ (Client.disconnect (5 + 1) C2closing).channels = C2closing.channels
  ∧ (Client.disconnect 20 C2open).connection_state = ConnectionState.closed
  ∧ (Client.disconnect 20 C2open).channels = []
  ∧ socketSent (Client.disconnect 20 C2open)
      = [{ event := MessageEvent.phxLeave, topic := "realtime:test"
           payload := Payload.empty, message_ref := some "c1+leave" }] :=
  C2_disconnect_amended 5 C2closed C2closing rfl rfl

def chanJoined2 : RealtimeChannel :=
  { chanJoined with id := "c2", topic := "realtime:test2" }

def C10two : Client :=
  { baseClient with channels := [chanJoined, chanJoined2] }

def C10one : Client :=
  { baseClient with channels := [chanJoined] }

/-- C10: remove_channel with an unregistered id returns none and leaves the
client untouched; with a registered id it removes that channel from the
registry and unsubscribes it (the returned channel is Leaving and its leave
message is enqueued), keeping the connection state when other channels
remain, and additionally disconnecting the whole client, connection state
Closed, when the registry became empty. -/
theorem C10_remove_channel (fuel : Nat) (cl : Client) (i : String)
    (h : cl.channels.find? (fun ch => ch.id == i) = none) :
    Client.remove_channel fuel cl i = (cl, none)
  ∧ ((Client.remove_channel 20 C10two "c1").1.channels.map RealtimeChannel.id
        = ["c2"]
      ∧ (Client.remove_channel 20 C10two "c1").1.connection_state
          = ConnectionState.opened
      ∧ (Client.remove_channel 20 C10two "c1").1.outbound
          = [{ event := MessageEvent.phxLeave, topic := "realtime:test"
               payload := Payload.empty, message_ref := some "c1+leave" }]
      ∧ Option.map RealtimeChannel.connection_state
          (Client.remove_channel 20 C10two "c1").2 = some ChannelState.leaving)
  ∧ ((Client.remove_channel 20 C10one "c1").1.connection_state
        = ConnectionState.closed
      ∧ (Client.remove_channel 20 C10one "c1").1.channels = []
      ∧ Option.map RealtimeChannel.connection_state
          (Client.remove_channel 20 C10one "c1").2 = some ChannelState.leaving
      ∧ socketSent (Client.remove_channel 20 C10one "c1").1
          = [{ event := MessageEvent.phxLeave, topic := "realtime:test"
               payload := Payload.empty, message_ref := some "c1+leave" }]) := by
  refine ⟨?_, ?_, ?_⟩
  · simp [Client.remove_channel, h]
  · refine ⟨?_, ?_, ?_, ?_⟩ <;>
      simp [Client.remove_channel, C10two, baseClient, sockW, plainResponder,
        chanJoined, chanJoined2, testJoinPayload, RealtimeChannel.unsubscribe,
        RealtimeChannel.send]
  · refine ⟨?_, ?_, ?_, ?_⟩ <;>
      simp [Client.remove_channel, Client.disconnect, Client.remove_all_channels,
        Client.drain_loop, Client.close_loop, Client.next_message,
        Client.next_message_io, Client.next_message_read, Client.run_monitor,
        Client.run_heartbeat, Client.write_socket, Client.read_socket,
        Client.unsubscribeChannels, Client.run_middleware, Client.send,
        Client.reconnect, Socket.sendMsg, socketSent, backoff,
        RealtimeChannel.unsubscribe, RealtimeChannel.send, C10one, baseClient,
        sockW, plainResponder, chanJoined, testJoinPayload]

/-- Witness for C10 at an unregistered id on a channel-free client. -/
theorem C10_remove_channel_witness :
    Client.remove_channel 3 baseClient "x" = (baseClient, none)
  ∧ ((Client.remove_channel 20 C10two "c1").1.channels.map RealtimeChannel.id
        = ["c2"]
      ∧ (Client.remove_channel 20 C10two "c1").1.connection_state
          = ConnectionState.opened
      ∧ (Client.remove_channel 20 C10two "c1").1.outbound
          = [{ event := MessageEvent.phxLeave, topic := "realtime:test"
               payload := Payload.empty, message_ref := some "c1+leave" }]
      ∧ Option.map RealtimeChannel.connection_state
          (Client.remove_channel 20 C10two "c1").2 = some ChannelState.leaving)
  ∧ ((Client.remove_channel 20 C10one "c1").1.connection_state
        = ConnectionState.closed
      ∧ (Client.remove_channel 20 C10one "c1").1.channels = []
      ∧ Option.map RealtimeChannel.connection_state
          (Client.remove_channel 20 C10one "c1").2 = some ChannelState.leaving
      ∧ socketSent (Client.remove_channel 20 C10one "c1").1
          = [{ event := MessageEvent.phxLeave, topic := "realtime:test"
               payload := Payload.empty, message_ref := some "c1+leave" }]) :=
  C10_remove_channel 3 baseClient "x" rfl

end Rt

namespace Rt

/-! ## Wire encoding (C8)

Modelled from the spec: the (de)serialization contract of MessageProtocol
(spec 4.1 and 6) lives in the missing message module.  Each frame is a JSON
object with fields event, topic, payload and ref; the embedding represents
wire bytes by a JSON value tree and gives every payload variant a tagged
encoding together with a decoder. -/

/-- Modelled from the spec: a JSON wire value. -/
inductive Wire where
  | null
  | bool (b : Bool)
  | num (n : Int)
  | str (s : String)
  | arr (xs : List Wire)
  | obj (fields : List (String × Wire))

def encodeValue : Value → Wire
  | Value.vNull => Wire.null
  | Value.vBool b => Wire.bool b
  | Value.vInt n => Wire.num n
  | Value.vStr s => Wire.str s

def decodeValue : Wire → Except String Value
  | Wire.null => Except.ok Value.vNull
  | Wire.bool b => Except.ok (Value.vBool b)
  | Wire.num n => Except.ok (Value.vInt n)
  | Wire.str s => Except.ok (Value.vStr s)
  | _ => Except.error "expected scalar value"

def encodeOptStr : Option String → Wire
  | none => Wire.null
  | some s => Wire.str s

def decodeOptStr : Wire → Except String (Option String)
  | Wire.null => Except.ok none
  | Wire.str s => Except.ok (some s)
  | _ => Except.error "expected optional string"

/-- Decoder for a list of same-shaped wire values. -/
def decodeList (f : Wire → Except String α) : List Wire → Except String (List α)
  | [] => Except.ok []
  | w :: rest =>
    match f w, decodeList f rest with
    | Except.ok x, Except.ok xs => Except.ok (x :: xs)
    | Except.error e, _ => Except.error e
    | _, Except.error e => Except.error e

/-- Decoder for a keyed object body whose values share one shape. -/
def decodePairs (f : Wire → Except String α) :
    List (String × Wire) → Except String (List (String × α))
  | [] => Except.ok []
  | p :: rest =>
    match f p.2, decodePairs f rest with
    | Except.ok x, Except.ok xs => Except.ok ((p.1, x) :: xs)
    | Except.error e, _ => Except.error e
    | _, Except.error e => Except.error e

def encodeFields (m : List (String × Value)) : List (String × Wire) :=
  m.map (fun p => (p.1, encodeValue p.2))

def encodeStateData (m : StateData) : Wire :=
  Wire.obj (encodeFields m)

def decodeStateData : Wire → Except String StateData
  | Wire.obj fields => decodePairs decodeValue fields
  | _ => Except.error "expected object"

def encodeMeta (m : RawPresenceMeta) : Wire :=
  Wire.obj (("phx_ref", Wire.str m.phx_ref) :: encodeFields m.state_data)

def decodeMeta : Wire → Except String RawPresenceMeta
  | Wire.obj (("phx_ref", Wire.str r) :: rest) =>
    match decodePairs decodeValue rest with
    | Except.ok sd => Except.ok { phx_ref := r, state_data := sd }
    | Except.error e => Except.error e
  | _ => Except.error "expected meta object"

def encodeMetas (ms : RawPresenceMetas) : Wire :=
  Wire.obj [("metas", Wire.arr (ms.metas.map encodeMeta))]

def decodeMetas : Wire → Except String RawPresenceMetas
  | Wire.obj [("metas", Wire.arr xs)] =>
    match decodeList decodeMeta xs with
    | Except.ok ms => Except.ok { metas := ms }
    | Except.error e => Except.error e
  | _ => Except.error "expected metas object"

def encodeRawState (r : RawPresenceState) : Wire :=
  Wire.obj (r.map (fun p => (p.1, encodeMetas p.2)))

def decodeRawState : Wire → Except String RawPresenceState
  | Wire.obj fields => decodePairs decodeMetas fields
  | _ => Except.error "expected state object"

def encodeRawDiff (d : RawPresenceDiff) : Wire :=
  Wire.obj [("joins", encodeRawState d.joins), ("leaves", encodeRawState d.leaves)]

def decodeRawDiff : Wire → Except String RawPresenceDiff
  | Wire.obj [("joins", wj), ("leaves", wl)] =>
    match decodeRawState wj, decodeRawState wl with
    | Except.ok j, Except.ok l => Except.ok { joins := j, leaves := l }
    | Except.error e, _ => Except.error e
    | _, Except.error e => Except.error e
  | _ => Except.error "expected diff object"

def encodeChangeEvent : PostgresChangesEvent → Wire
  | PostgresChangesEvent.all => Wire.str "*"
  | PostgresChangesEvent.insert => Wire.str "INSERT"
  | PostgresChangesEvent.update => Wire.str "UPDATE"
  | PostgresChangesEvent.delete => Wire.str "DELETE"

def decodeChangeEvent : Wire → Except String PostgresChangesEvent
  | Wire.str "*" => Except.ok PostgresChangesEvent.all
  | Wire.str "INSERT" => Except.ok PostgresChangesEvent.insert
  | Wire.str "UPDATE" => Except.ok PostgresChangesEvent.update
  | Wire.str "DELETE" => Except.ok PostgresChangesEvent.delete
  | _ => Except.error "expected change event"

def encodePostgresChange (c : PostgresChange) : Wire :=
  Wire.obj [("event", encodeChangeEvent c.event), ("schema", Wire.str c.schema),
    ("table", Wire.str c.table), ("filter", encodeOptStr c.filter)]

def decodePostgresChange : Wire → Except String PostgresChange
  | Wire.obj [("event", we), ("schema", Wire.str s), ("table", Wire.str t),
      ("filter", wf)] =>
    match decodeChangeEvent we, decodeOptStr wf with
    | Except.ok e, Except.ok f =>
      Except.ok { event := e, schema := s, table := t, filter := f }
    | Except.error e, _ => Except.error e
    | _, Except.error e => Except.error e
  | _ => Except.error "expected postgres change"

def encodeJoinConfig (c : JoinConfig) : Wire :=
  Wire.obj
    [("broadcast", Wire.obj [("self", Wire.bool c.broadcast.broadcast_self),
        ("ack", Wire.bool c.broadcast.ack)]),
     ("presence", Wire.obj [("key", encodeOptStr c.presence.key)]),
     ("postgres_changes", Wire.arr (c.postgres_changes.map encodePostgresChange))]

def decodeJoinConfig : Wire → Except String JoinConfig
  | Wire.obj
      [("broadcast", Wire.obj [("self", Wire.bool bs), ("ack", Wire.bool ba)]),
       ("presence", Wire.obj [("key", wk)]),
       ("postgres_changes", Wire.arr xs)] =>
    match decodeOptStr wk, decodeList decodePostgresChange xs with
    | Except.ok k, Except.ok cs =>
      Except.ok { broadcast := { broadcast_self := bs, ack := ba }
                  presence := { key := k }, postgres_changes := cs }
    | Except.error e, _ => Except.error e
    | _, Except.error e => Except.error e
  | _ => Except.error "expected join config"

def encodeJoinPayload (p : JoinPayload) : Wire :=
  Wire.obj [("config", encodeJoinConfig p.config),
    ("access_token", Wire.str p.access_token)]

def decodeJoinPayload : Wire → Except String JoinPayload
  | Wire.obj [("config", wc), ("access_token", Wire.str tok)] =>
    match decodeJoinConfig wc with
    | Except.ok c => Except.ok { config := c, access_token := tok }
    | Except.error e => Except.error e
  | _ => Except.error "expected join payload"

def encodePostgresData (d : PostgresChangesData) : Wire :=
  Wire.obj [("type", encodeChangeEvent d.change_type),
    ("schema", Wire.str d.schema), ("table", Wire.str d.table),
    ("filter", encodeOptStr d.filter), ("record", encodeStateData d.record)]

def decodePostgresData : Wire → Except String PostgresChangesData
  | Wire.obj [("type", we), ("schema", Wire.str s), ("table", Wire.str t),
      ("filter", wf), ("record", wr)] =>
    match decodeChangeEvent we, decodeOptStr wf, decodeStateData wr with
    | Except.ok e, Except.ok f, Except.ok r =>
      Except.ok { change_type := e, schema := s, table := t, filter := f
                  record := r }
    | Except.error e, _, _ => Except.error e
    | _, Except.error e, _ => Except.error e
    | _, _, Except.error e => Except.error e
  | _ => Except.error "expected postgres data"

def encodeStatus : PayloadStatus → Wire
  | PayloadStatus.ok => Wire.str "ok"
  | PayloadStatus.error => Wire.str "error"

def decodeStatus : Wire → Except String PayloadStatus
  | Wire.str "ok" => Except.ok PayloadStatus.ok
  | Wire.str "error" => Except.ok PayloadStatus.error
  | _ => Except.error "expected status"

def encodePayload : Payload → Wire
  | Payload.join p =>
    Wire.obj [("type", Wire.str "join"), ("data", encodeJoinPayload p)]
  | Payload.broadcast p =>
    Wire.obj [("type", Wire.str "broadcast"),
      ("data", Wire.obj [("event", Wire.str p.event),
        ("payload", encodeStateData p.payload)])]
  | Payload.presenceTrack m =>
    Wire.obj [("type", Wire.str "presence_track"), ("data", encodeStateData m)]
  | Payload.presenceState s =>
    Wire.obj [("type", Wire.str "presence_state"), ("data", encodeRawState s)]
  | Payload.presenceDiff d =>
    Wire.obj [("type", Wire.str "presence_diff"), ("data", encodeRawDiff d)]
  | Payload.postgresChanges p =>
    Wire.obj [("type", Wire.str "postgres_changes"),
      ("data", encodePostgresData p.data)]
  | Payload.accessToken p =>
    Wire.obj [("type", Wire.str "access_token"),
      ("data", Wire.str p.access_token)]
  | Payload.response r =>
    Wire.obj [("type", Wire.str "response"),
      ("data", Wire.obj [("status", encodeStatus r.status)])]
  | Payload.empty =>
    Wire.obj [("type", Wire.str "empty"), ("data", Wire.null)]

def decodePayload : Wire → Except String Payload
  | Wire.obj [("type", Wire.str tag), ("data", w)] =>
    match tag with
    | "join" =>
      match decodeJoinPayload w with
      | Except.ok p => Except.ok (Payload.join p)
      | Except.error e => Except.error e
    | "broadcast" =>
      match w with
      | Wire.obj [("event", Wire.str ev), ("payload", wp)] =>
        match decodeStateData wp with
        | Except.ok m => Except.ok (Payload.broadcast { event := ev, payload := m })
        | Except.error e => Except.error e
      | _ => Except.error "expected broadcast payload"
    | "presence_track" =>
      match decodeStateData w with
      | Except.ok m => Except.ok (Payload.presenceTrack m)
      | Except.error e => Except.error e
    | "presence_state" =>
      match decodeRawState w with
      | Except.ok s => Except.ok (Payload.presenceState s)
      | Except.error e => Except.error e
    | "presence_diff" =>
      match decodeRawDiff w with
      | Except.ok d => Except.ok (Payload.presenceDiff d)
      | Except.error e => Except.error e
    | "postgres_changes" =>
      match decodePostgresData w with
      | Except.ok d => Except.ok (Payload.postgresChanges { data := d })
      | Except.error e => Except.error e
    | "access_token" =>
      match w with
      | Wire.str tok => Except.ok (Payload.accessToken { access_token := tok })
      | _ => Except.error "expected token"
    | "response" =>
      match w with
      | Wire.obj [("status", ws)] =>
        match decodeStatus ws with
        | Except.ok st => Except.ok (Payload.response { status := st })
        | Except.error e => Except.error e
      | _ => Except.error "expected response"
    | "empty" => Except.ok Payload.empty
    | _ => Except.error "unknown payload tag"
  | _ => Except.error "expected payload object"

def encodeEvent : MessageEvent → Wire
  | MessageEvent.phxClose => Wire.str "phx_close"
  | MessageEvent.phxReply => Wire.str "phx_reply"
  | MessageEvent.phxJoin => Wire.str "phx_join"
  | MessageEvent.phxLeave => Wire.str "phx_leave"
  | MessageEvent.phxError => Wire.str "phx_error"
  | MessageEvent.presence => Wire.str "presence"
  | MessageEvent.presenceState => Wire.str "presence_state"
  | MessageEvent.presenceDiff => Wire.str "presence_diff"
  | MessageEvent.untrack => Wire.str "untrack"
  | MessageEvent.accessToken => Wire.str "access_token"
  | MessageEvent.broadcast => Wire.str "broadcast"
  | MessageEvent.postgresChanges => Wire.str "postgres_changes"
  | MessageEvent.heartbeat => Wire.str "heartbeat"
  | MessageEvent.system => Wire.str "system"

def decodeEvent : Wire → Except String MessageEvent
  | Wire.str "phx_close" => Except.ok MessageEvent.phxClose
  | Wire.str "phx_reply" => Except.ok MessageEvent.phxReply
  | Wire.str "phx_join" => Except.ok MessageEvent.phxJoin
  | Wire.str "phx_leave" => Except.ok MessageEvent.phxLeave
  | Wire.str "phx_error" => Except.ok MessageEvent.phxError
  | Wire.str "presence" => Except.ok MessageEvent.presence
  | Wire.str "presence_state" => Except.ok MessageEvent.presenceState
  | Wire.str "presence_diff" => Except.ok MessageEvent.presenceDiff
  | Wire.str "untrack" => Except.ok MessageEvent.untrack
  | Wire.str "access_token" => Except.ok MessageEvent.accessToken
  | Wire.str "broadcast" => Except.ok MessageEvent.broadcast
  | Wire.str "postgres_changes" => Except.ok MessageEvent.postgresChanges
  | Wire.str "heartbeat" => Except.ok MessageEvent.heartbeat
  | Wire.str "system" => Except.ok MessageEvent.system
  | _ => Except.error "unknown event"

/-- Modelled from the spec: encode, the frame is a JSON object with fields
event, topic, payload and ref (spec section 6). -/
def encodeMessage (m : RealtimeMessage) : Wire :=
  Wire.obj [("event", encodeEvent m.event), ("topic", Wire.str m.topic),
    ("payload", encodePayload m.payload), ("ref", encodeOptStr m.message_ref)]

/-- Modelled from the spec: decode, the inverse contract of encode, failing
on any other shape. -/
def decodeMessage : Wire → Except String RealtimeMessage
  | Wire.obj [("event", we), ("topic", Wire.str topic), ("payload", wp),
      ("ref", wr)] =>
    match decodeEvent we, decodePayload wp, decodeOptStr wr with
    | Except.ok e, Except.ok p, Except.ok r =>
      Except.ok { event := e, topic := topic, payload := p, message_ref := r }
    | Except.error e, _, _ => Except.error e
    | _, Except.error e, _ => Except.error e
    | _, _, Except.error e => Except.error e
  | _ => Except.error "expected frame object"

end Rt

namespace Rt

/-! ## Round-trip lemmas for the wire encoding -/

theorem decodeValue_encode (v : Value) :
    decodeValue (encodeValue v) = Except.ok v := by
  cases v <;> rfl

theorem decodeOptStr_encode (o : Option String) :
    decodeOptStr (encodeOptStr o) = Except.ok o := by
  cases o <;> rfl

theorem decodeList_map {α : Type} (f : Wire → Except String α) (g : α → Wire)
    (h : ∀ x, f (g x) = Except.ok x) (xs : List α) :
    decodeList f (xs.map g) = Except.ok xs := by
  induction xs with
  | nil => rfl
  | cons x rest ih => simp [decodeList, h, ih]

theorem decodePairs_map {α : Type} (f : Wire → Except String α) (g : α → Wire)
    (h : ∀ x, f (g x) = Except.ok x) (m : List (String × α)) :
    decodePairs f (m.map (fun p => (p.1, g p.2))) = Except.ok m := by
  induction m with
  | nil => rfl
  | cons p rest ih => simp [decodePairs, h, ih]

theorem decodeStateData_encode (m : StateData) :
    decodeStateData (encodeStateData m) = Except.ok m := by
  simp [decodeStateData, encodeStateData, encodeFields,
    decodePairs_map decodeValue encodeValue decodeValue_encode]

theorem decodeMeta_encode (m : RawPresenceMeta) :
    decodeMeta (encodeMeta m) = Except.ok m := by
  cases m with
  | mk r sd =>
    simp [encodeMeta, decodeMeta, encodeFields,
      decodePairs_map decodeValue encodeValue decodeValue_encode]

theorem decodeMetas_encode (ms : RawPresenceMetas) :
    decodeMetas (encodeMetas ms) = Except.ok ms := by
  cases ms with
  | mk l =>
    simp [encodeMetas, decodeMetas,
      decodeList_map decodeMeta encodeMeta decodeMeta_encode]

theorem decodeRawState_encode (r : RawPresenceState) :
    decodeRawState (encodeRawState r) = Except.ok r := by
  simp [encodeRawState, decodeRawState,
    decodePairs_map decodeMetas encodeMetas decodeMetas_encode]

theorem decodeRawDiff_encode (d : RawPresenceDiff) :
    decodeRawDiff (encodeRawDiff d) = Except.ok d := by
  cases d with
  | mk j l => simp [encodeRawDiff, decodeRawDiff, decodeRawState_encode]

theorem decodeChangeEvent_encode (e : PostgresChangesEvent) :
    decodeChangeEvent (encodeChangeEvent e) = Except.ok e := by
  cases e <;> rfl

theorem decodePostgresChange_encode (c : PostgresChange) :
    decodePostgresChange (encodePostgresChange c) = Except.ok c := by
  cases c with
  | mk e s t f =>
    simp [encodePostgresChange, decodePostgresChange, decodeChangeEvent_encode,
      decodeOptStr_encode]

theorem decodeJoinConfig_encode (c : JoinConfig) :
    decodeJoinConfig (encodeJoinConfig c) = Except.ok c := by
  rcases c with ⟨⟨bs, ba⟩, ⟨k⟩, pcs⟩
  simp [encodeJoinConfig, decodeJoinConfig, decodeOptStr_encode,
    decodeList_map decodePostgresChange encodePostgresChange
      decodePostgresChange_encode]

theorem decodeJoinPayload_encode (p : JoinPayload) :
    decodeJoinPayload (encodeJoinPayload p) = Except.ok p := by
  cases p with
  | mk c tok => simp [encodeJoinPayload, decodeJoinPayload, decodeJoinConfig_encode]

theorem decodePostgresData_encode (d : PostgresChangesData) :
    decodePostgresData (encodePostgresData d) = Except.ok d := by
  cases d with
  | mk e s t f r =>
    simp [encodePostgresData, decodePostgresData, decodeChangeEvent_encode,
      decodeOptStr_encode, decodeStateData_encode]

theorem decodeStatus_encode (s : PayloadStatus) :
    decodeStatus (encodeStatus s) = Except.ok s := by
  cases s <;> rfl

theorem decodePayload_encode (p : Payload) :
    decodePayload (encodePayload p) = Except.ok p := by
  cases p with
  | join jp => simp [encodePayload, decodePayload, decodeJoinPayload_encode]
  | broadcast bp =>
    cases bp with
    | mk ev m => simp [encodePayload, decodePayload, decodeStateData_encode]
  | presenceTrack m => simp [encodePayload, decodePayload, decodeStateData_encode]
  | presenceState s => simp [encodePayload, decodePayload, decodeRawState_encode]
  | presenceDiff d => simp [encodePayload, decodePayload, decodeRawDiff_encode]
  | postgresChanges pp =>
    cases pp with
    | mk d => simp [encodePayload, decodePayload, decodePostgresData_encode]
  | accessToken ap =>
    cases ap with
    | mk tok => simp [encodePayload, decodePayload]
  | response r =>
    cases r with
    | mk st => simp [encodePayload, decodePayload, decodeStatus_encode]
  | empty => rfl

theorem decodeEvent_encode (e : MessageEvent) :
    decodeEvent (encodeEvent e) = Except.ok e := by
  cases e <;> rfl

/-- C8: wire round-trip identity, for every RealtimeMessage and so for every
payload variant, decoding the encoded frame yields the original message. -/
theorem C8_wire_roundtrip (m : RealtimeMessage) :
    decodeMessage (encodeMessage m) = Except.ok m := by
  cases m with
  | mk e t p r =>
    simp [encodeMessage, decodeMessage, decodeEvent_encode,
      decodePayload_encode, decodeOptStr_encode]

end Rt
